import Mathlib

/-!
Shallow embedding of the pub/sub peer-discovery core of the repository
(`src/network/p2p/pubsub_peer_discovery.rs`), with the administrative RPC
service out of scope per the spec.  Pure translations of the Rust code:
the lifecycle state machine (`start`/`stop`/`is_started`), the broadcast
operation, the spawned broadcast-scheduler loop, and the inbound swarm-event
handler.  The shared `Arc<Mutex<bool>>` stop signal is modelled as a single
boolean cell (it is allocated once in `new` and every clone aliases it);
the swarm collaborator appears through its observable boundary: results of
`subscribe`/`unsubscribe`/`publish` are inputs, and the effects the core
requests from it are recorded as an explicit trace.  A Rust panic coming
from `.unwrap()` or from reaching unimplemented code is a distinguished
outcome, not a value.
-/

/-- A pub/sub topic name; the source compares topics by their string form
(`self.topic.to_string() != message.topic.to_string()`). -/
abbrev TopicId := String

/-- A peer identity, carried on the wire as its raw bytes
(`local_peer_id().to_bytes()` in the source). -/
structure PeerId where
  bytes : List Nat
deriving DecidableEq, Repr

/-- Observable requests the discovery core makes of its collaborators. -/
inductive Effect where
  | subscribe (t : TopicId)
  | unsubscribe (t : TopicId)
  | publish (t : TopicId) (payload : List Nat)
  | spawnScheduler
  | reportMalformed
  | dial (p : PeerId)
deriving DecidableEq, Repr

instance : BEq Effect := instBEqOfDecidableEq

/-- Outcome of running a piece of Rust code that may panic
(`.unwrap()` on an `Err`, or hitting a `todo!()`). -/
inductive RustOutcome (α : Type) where
  | ok (a : α)
  | panic
deriving Repr

instance [DecidableEq α] : DecidableEq (RustOutcome α) := fun a b => by
  cases a <;> cases b
  case ok.ok x y =>
    exact match decEq x y with
    | .isTrue h => .isTrue (by rw [h])
    | .isFalse h => .isFalse (by intro hc; cases hc; exact h rfl)
  case ok.panic _ => exact .isFalse (by intro h; cases h)
  case panic.ok _ => exact .isFalse (by intro h; cases h)
  case panic.panic => exact .isTrue rfl

/-- The `PubSubPeerDiscovery` struct.  `stop_signal` is the contents of the
shared `Arc<Mutex<bool>>` cell: it is allocated exactly once, in `new`, and
`start` only clones the `Arc`, so the one cell is shared by the struct and
by every scheduler task it ever spawns. -/
structure PubSubPeerDiscovery where
  interval : Nat
  listen_only : Bool
  is_started : Bool
  topic : TopicId
  stop_signal : Bool
deriving DecidableEq, Repr

namespace PubSubPeerDiscovery

/-- `PubSubPeerDiscovery::new` (source lines 26–40): `is_started = false`,
fresh stop-signal cell initialised to `false`. -/
def new (interval : Nat) (listen_only : Bool) (topic : TopicId) :
    PubSubPeerDiscovery :=
  { interval := interval
    listen_only := listen_only
    is_started := false
    topic := topic
    stop_signal := false }

/-- `PubSubPeerDiscovery::is_started` (source lines 42–44). -/
def isStarted (s : PubSubPeerDiscovery) : Bool := s.is_started

/-- The announcement payload published by `broadcast` (source line 165):
the raw bytes of the local peer identity. -/
def encodeAnnouncement (p : PeerId) : List Nat := p.bytes

/-- `broadcast` (source lines 162–173): read the local identity, publish its
bytes on the topic; the publish result is discarded (`let _ = ... publish`),
so the effect is issued regardless of whether the publish succeeds. -/
def broadcast (localId : PeerId) (topic : TopicId) : List Effect :=
  [Effect.publish topic (encodeAnnouncement localId)]

/-- `PubSubPeerDiscovery::start` (source lines 46–94).  `subOk` is whether the
gossipsub collaborator accepts the subscription; the source calls
`.subscribe(&self.topic).unwrap()`, so a rejection is a panic, not an error
return.  On the non-listen-only path the source performs one synchronous
broadcast and then spawns the scheduler task. -/
def start (s : PubSubPeerDiscovery) (subOk : Bool) (localId : PeerId) :
    RustOutcome (PubSubPeerDiscovery × List Effect) :=
  if s.is_started then
    .ok (s, [])
  else if !subOk then
    .panic
  else
    let s' := { s with is_started := true }
    if s'.listen_only then
      .ok (s', [Effect.subscribe s.topic])
    else
      .ok (s', [Effect.subscribe s.topic] ++ broadcast localId s.topic
            ++ [Effect.spawnScheduler])

/-- `PubSubPeerDiscovery::stop` (source lines 96–113).  `unsubOk` is whether
the gossipsub collaborator accepts the unsubscription; the source calls
`.unsubscribe(&self.topic).unwrap()`, so a rejection is a panic.  Note that
`stop` only unsubscribes and clears `is_started`: it never writes to the
shared `stop_signal` cell. -/
def stop (s : PubSubPeerDiscovery) (unsubOk : Bool) :
    RustOutcome (PubSubPeerDiscovery × List Effect) :=
  if !s.is_started then
    .ok (s, [])
  else if !unsubOk then
    .panic
  else
    .ok ({ s with is_started := false }, [Effect.unsubscribe s.topic])

end PubSubPeerDiscovery

/-- Modelled from the spec: §4.4 AnnouncementCodec's decode direction is
missing from the source (the handler's decode/dial tail is `todo!("dial
peer")`).  Per the spec, "Decoding must validate the byte length and
structure before interpreting it as a peer identity" and "Decode is total
... it returns either a valid Announcement or a decode error".  The observed
wire payload is the identity's raw multihash bytes `code :: len :: digest`,
so validation checks that shape: a code byte, a digest-length byte, and a
digest of exactly that length, all bytes in range. -/
def validPeerIdBytes : List Nat → Bool
  | code :: len :: digest =>
      code < 256 && len < 256 && digest.length == len && digest.all (· < 256)
  | _ => false

/-- A peer identity is valid when its byte form passes the structural
validation that decoding performs. -/
def PeerId.valid (p : PeerId) : Bool := validPeerIdBytes p.bytes

/-- Modelled from the spec: §4.4 AnnouncementCodec decode, missing from the
source (only the encode direction, `to_bytes`, is observed).  Total:
validates the bytes and returns the originator identity, or a decode
error (`none`). -/
def decodeAnnouncement (payload : List Nat) : Option PeerId :=
  if validPeerIdBytes payload then some ⟨payload⟩ else none

/-- The inbound swarm events the handler distinguishes (source lines
126–134): a gossipsub message delivery carrying its propagation source,
topic and payload, or anything else. -/
inductive SwarmEventM where
  | message (source : PeerId) (topic : TopicId) (payload : List Nat)
  | other
deriving DecidableEq, Repr

/-- `SwarmEventHandler::handle` for `PubSubPeerDiscovery` (source lines
117–159).  The source's filter chain is translated directly: not-started →
ignore; non-message event → ignore; topic mismatch → ignore; message from
the local peer itself → ignore.  The tail past those filters is
`todo!("dial peer")` in the source; it is Modelled from the spec, §4.3
steps 5–6: decode the payload, on decode failure report one
`MalformedAnnouncement` and drop the message, on success dial the
discovered peer unless a session to it already exists.  `handle` takes the
state read-only (Rust `&self`), so discovery state is unchanged by
construction. -/
def handle (s : PubSubPeerDiscovery) (localId : PeerId)
    (hasSession : PeerId → Bool) (ev : SwarmEventM) : List Effect :=
  if !s.is_started then
    []
  else
    match ev with
    | .other => []
    | .message source topic payload =>
        if s.topic ≠ topic then
          []
        else if localId = source then
          []
        else
          match decodeAnnouncement payload with
          | none => [Effect.reportMalformed]
          | some ann => if hasSession ann then [] else [Effect.dial ann]

/-!
System-level trace semantics: the lifecycle state machine together with the
scheduler task `start` spawns (source lines 73–91).  The spawned loop is
`loop { select { tick => if *stop_signal { break } else { broadcast }, ctrl_c
=> { *stop_signal = true; break } } }`; each loop turn is one `SysEvent`.
The publish result of a tick's broadcast is an input (`pubOk`) that the code
discards (`let _ =`).
-/

/-- One observable step of the whole discovery subsystem. -/
inductive SysEvent where
  | callStart (subOk : Bool)
  | callStop (unsubOk : Bool)
  | tick (pubOk : Bool)
  | ctrlc
deriving DecidableEq, Repr

/-- The discovery struct plus whether a spawned scheduler task is live.
`localId` is the swarm's stable local peer identity. -/
structure SysState where
  disc : PubSubPeerDiscovery
  schedulerLive : Bool
  localId : PeerId
deriving DecidableEq, Repr

/-- One step of the system.  `callStart`/`callStop` run the source methods;
`tick` is one interval tick of the live scheduler loop (source lines 77–83:
break without broadcasting when the shared stop signal is set, otherwise
broadcast and continue, whatever the publish result); `ctrlc` is the
process-interrupt arm (source lines 85–88: set the shared signal and
break). -/
def sysStep (st : SysState) : SysEvent → RustOutcome (SysState × List Effect)
  | .callStart subOk =>
      match PubSubPeerDiscovery.start st.disc subOk st.localId with
      | .panic => .panic
      | .ok (d', effs) =>
          .ok ({ st with
                  disc := d'
                  schedulerLive :=
                    st.schedulerLive || effs.contains Effect.spawnScheduler },
               effs)
  | .callStop unsubOk =>
      match PubSubPeerDiscovery.stop st.disc unsubOk with
      | .panic => .panic
      | .ok (d', effs) => .ok ({ st with disc := d' }, effs)
  | .tick _pubOk =>
      if !st.schedulerLive then
        .ok (st, [])
      else if st.disc.stop_signal then
        .ok ({ st with schedulerLive := false }, [])
      else
        .ok (st, PubSubPeerDiscovery.broadcast st.localId st.disc.topic)
  | .ctrlc =>
      if st.schedulerLive then
        .ok ({ st with
                disc := { st.disc with stop_signal := true }
                schedulerLive := false }, [])
      else
        .ok (st, [])

/-- Run a sequence of system events, accumulating the effect trace; a panic
anywhere aborts the run. -/
def sysRun (st : SysState) : List SysEvent → RustOutcome (SysState × List Effect)
  | [] => .ok (st, [])
  | e :: es =>
      match sysStep st e with
      | .panic => .panic
      | .ok (st', effs) =>
          match sysRun st' es with
          | .panic => .panic
          | .ok (st'', effs') => .ok (st'', effs ++ effs')

/-! Concrete values used to exercise the model. -/

/-- A structurally valid peer identity (multihash bytes `18, 2, 7, 9`). -/
def samplePeer : PeerId := ⟨[18, 2, 7, 9]⟩

/-- A second, distinct valid peer identity. -/
def otherPeer : PeerId := ⟨[18, 2, 7, 10]⟩

/-- A freshly constructed machine: interval 2, not listen-only, topic `"T"`. -/
def freshDisc : PubSubPeerDiscovery := PubSubPeerDiscovery.new 2 false "T"

/-- The fresh machine after its `is_started` flag has been set. -/
def startedDisc : PubSubPeerDiscovery := { freshDisc with is_started := true }

/-- Initial system state: fresh machine, no scheduler task, local peer
`samplePeer`. -/
def sysInit : SysState :=
  { disc := freshDisc, schedulerLive := false, localId := samplePeer }

/-- System state with a started machine and a live scheduler whose shared
stop signal is still `false`. -/
def liveSys : SysState :=
  { disc := startedDisc, schedulerLive := true, localId := samplePeer }

/-- The system state reached from `sysInit` by `start(); ctrl_c; stop();
start()`: the machine is started again and a second scheduler is live, but
the one shared stop-signal cell still holds `true` from the first cycle. -/
def cycleTwoSys : SysState :=
  { disc := { startedDisc with stop_signal := true }
    schedulerLive := true
    localId := samplePeer }

/-!
Theorems, one per claim of the specification review.
-/

/-- C1: the claim says that `stop()` sets the stop signal, so that no
publish is issued after `stop()` plus one broadcast interval.  Evaluating
the code on the failing input — a fresh machine, `start()` succeeding,
`stop()` succeeding, then one interval tick — shows the divergence: the
source's `stop` never writes the shared stop signal (it only unsubscribes
and clears `is_started`), so the scheduler's next tick still sees the
signal `false` and publishes again after `stop()` has returned. -/
theorem stop_leaves_signal_unset_publish_after_stop :
    sysRun sysInit [.callStart true, .callStop true, .tick true] =
      .ok ({ disc := freshDisc, schedulerLive := true, localId := samplePeer },
           [Effect.subscribe "T", Effect.publish "T" [18, 2, 7, 9],
            Effect.spawnScheduler, Effect.unsubscribe "T",
            Effect.publish "T" [18, 2, 7, 9]]) ∧
    freshDisc.stop_signal = false := by
  constructor <;> rfl

/-- C2: the claim says a pub/sub rejection of the topic makes `start()`
return a `SubscriptionError` and `stop()` return an `UnsubscriptionError`.
Evaluating the code on the failing inputs shows the divergence: the source
calls `.unwrap()` on both `subscribe` and `unsubscribe`, so a rejection is
a panic, not a fallible return to the caller. -/
theorem subscribe_rejection_panics :
    PubSubPeerDiscovery.start freshDisc false samplePeer = .panic ∧
    PubSubPeerDiscovery.stop startedDisc false = .panic := by
  constructor <;> rfl

/-- C3: `start()` is idempotent — on an already-started machine it returns
success immediately with an empty effect trace: no subscribe, no publish,
no scheduler spawn, and the state (including `is_started = true`) is
unchanged. -/
theorem start_idempotent (s : PubSubPeerDiscovery) (subOk : Bool)
    (localId : PeerId) (h : s.is_started = true) :
    PubSubPeerDiscovery.start s subOk localId = .ok (s, []) ∧
    s.isStarted = true := by
  constructor
  · simp [PubSubPeerDiscovery.start, h]
  · exact h

/-- Witness for C3 at the concrete started machine. -/
theorem start_idempotent_witness :
    PubSubPeerDiscovery.start startedDisc true samplePeer =
      .ok (startedDisc, []) ∧
    startedDisc.isStarted = true :=
  start_idempotent startedDisc true samplePeer rfl

/-- C4: an on-topic message from a foreign peer whose payload fails to
decode produces exactly one `MalformedAnnouncement` report and nothing
else — no dial, no crash (the model's handler is a total function), and no
change to discovery state (the source's `handle` takes `&self`, so it
cannot mutate the started flag). -/
theorem handle_malformed_reports_once (s : PubSubPeerDiscovery)
    (localId source : PeerId) (hasSession : PeerId → Bool)
    (payload : List Nat) (hst : s.is_started = true)
    (hsrc : localId ≠ source) (hdec : decodeAnnouncement payload = none) :
    handle s localId hasSession (.message source s.topic payload) =
      [Effect.reportMalformed] := by
  simp [handle, hst, hsrc, hdec]

/-- Witness for C4: a started machine, a foreign source, and the malformed
payload `[1]` (too short to be a valid identity). -/
theorem handle_malformed_reports_once_witness :
    handle startedDisc samplePeer (fun _ => false)
        (.message otherPeer startedDisc.topic [1]) =
      [Effect.reportMalformed] :=
  handle_malformed_reports_once startedDisc samplePeer otherPeer
    (fun _ => false) [1] rfl (by decide) rfl

/-- C5: a message whose source identity equals the local node's own
identity is ignored — the handler produces no effects at all, in
particular no dial — whatever the state, topic and payload. -/
theorem handle_self_message_ignored (s : PubSubPeerDiscovery)
    (localId : PeerId) (hasSession : PeerId → Bool) (t : TopicId)
    (payload : List Nat) :
    handle s localId hasSession (.message localId t payload) = [] := by
  by_cases h1 : s.is_started <;> simp [handle, h1]

/-- C6: the handler is a no-op — no effects, in particular no dial — both
for any event arriving while the machine is not started, and for any
message whose topic differs from the configured discovery topic. -/
theorem handle_stopped_or_offtopic_noop (s : PubSubPeerDiscovery)
    (localId source : PeerId) (hasSession : PeerId → Bool)
    (ev : SwarmEventM) (t : TopicId) (payload : List Nat) :
    (s.is_started = false → handle s localId hasSession ev = []) ∧
    (s.topic ≠ t →
      handle s localId hasSession (.message source t payload) = []) := by
  constructor
  · intro h
    simp [handle, h]
  · intro h
    by_cases h1 : s.is_started <;> simp [handle, h1, h]

/-- Witness for C6: a not-started machine ignores an event, and a started
machine on topic `"T"` ignores a message on topic `"U"`. -/
theorem handle_stopped_or_offtopic_noop_witness :
    handle freshDisc samplePeer (fun _ => false) .other = [] ∧
    handle startedDisc samplePeer (fun _ => false)
      (.message otherPeer "U" [1]) = [] :=
  ⟨(handle_stopped_or_offtopic_noop freshDisc samplePeer otherPeer
      (fun _ => false) .other "U" [1]).1 rfl,
   (handle_stopped_or_offtopic_noop startedDisc samplePeer otherPeer
      (fun _ => false) .other "U" [1]).2 (by decide)⟩

/-- C7: in listen-only mode, `start()` on a stopped machine subscribes and
returns success, with an effect trace containing exactly the subscription:
no publish is issued and no scheduler task is spawned. -/
theorem start_listen_only_no_broadcast (s : PubSubPeerDiscovery)
    (localId : PeerId) (h1 : s.is_started = false)
    (h2 : s.listen_only = true) :
    PubSubPeerDiscovery.start s true localId =
      .ok ({ s with is_started := true }, [Effect.subscribe s.topic]) ∧
    Effect.spawnScheduler ∉ [Effect.subscribe s.topic] ∧
    ∀ t pl, Effect.publish t pl ∉ [Effect.subscribe s.topic] := by
  refine ⟨?_, by simp, by simp⟩
  simp [PubSubPeerDiscovery.start, h1, h2]

/-- Witness for C7 at a fresh listen-only machine on topic `"T"`. -/
theorem start_listen_only_no_broadcast_witness :
    PubSubPeerDiscovery.start (PubSubPeerDiscovery.new 2 true "T") true
        samplePeer =
      .ok ({ PubSubPeerDiscovery.new 2 true "T" with is_started := true },
           [Effect.subscribe "T"]) ∧
    Effect.spawnScheduler ∉ [Effect.subscribe "T"] ∧
    ∀ t pl, Effect.publish t pl ∉ [Effect.subscribe "T"] :=
  start_listen_only_no_broadcast (PubSubPeerDiscovery.new 2 true "T")
    samplePeer rfl rfl

/-- C8: a publish failure does not terminate the scheduler: from a live
scheduler with the stop signal unset, a tick whose publish fails is
followed by another tick that broadcasts again, whatever that tick's
publish result, and the scheduler is still live afterwards. -/
theorem scheduler_survives_publish_failure (st : SysState) (p : Bool)
    (hlive : st.schedulerLive = true) (hsig : st.disc.stop_signal = false) :
    sysRun st [.tick false, .tick p] =
      .ok (st, [Effect.publish st.disc.topic
                  (PubSubPeerDiscovery.encodeAnnouncement st.localId),
                Effect.publish st.disc.topic
                  (PubSubPeerDiscovery.encodeAnnouncement st.localId)]) := by
  simp [sysRun, sysStep, hlive, hsig, PubSubPeerDiscovery.broadcast]

/-- Witness for C8 at a live scheduler on topic `"T"`. -/
theorem scheduler_survives_publish_failure_witness :
    sysRun liveSys [.tick false, .tick true] =
      .ok (liveSys, [Effect.publish liveSys.disc.topic
                       (PubSubPeerDiscovery.encodeAnnouncement liveSys.localId),
                     Effect.publish liveSys.disc.topic
                       (PubSubPeerDiscovery.encodeAnnouncement liveSys.localId)]) :=
  scheduler_survives_publish_failure liveSys true rfl rfl

/-- C9: the announcement codec round-trips — decoding the bytes produced by
encoding any structurally valid peer identity yields that same identity. -/
theorem decode_encode_roundtrip (p : PeerId) (h : p.valid = true) :
    decodeAnnouncement (PubSubPeerDiscovery.encodeAnnouncement p) = some p := by
  cases p with
  | mk bs =>
      simp [PeerId.valid] at h
      simp [decodeAnnouncement, PubSubPeerDiscovery.encodeAnnouncement, h]

/-- Witness for C9 at the concrete valid identity `samplePeer`. -/
theorem decode_encode_roundtrip_witness :
    decodeAnnouncement (PubSubPeerDiscovery.encodeAnnouncement samplePeer) =
      some samplePeer :=
  decode_encode_roundtrip samplePeer (by decide)

/-- Helper: a successful `start` never changes the contents of the shared
stop-signal cell — in particular it never replaces it with a fresh one. -/
theorem start_preserves_stop_signal (s : PubSubPeerDiscovery) (subOk : Bool)
    (localId : PeerId) (s1 : PubSubPeerDiscovery) (effs1 : List Effect)
    (h : PubSubPeerDiscovery.start s subOk localId = .ok (s1, effs1)) :
    s1.stop_signal = s.stop_signal := by
  by_cases h1 : s.is_started <;> by_cases h2 : subOk <;>
    by_cases h3 : s.listen_only <;>
    simp [PubSubPeerDiscovery.start, h1, h2, h3] at h <;>
    rw [← h.1]

/-- Helper: a successful `stop` never changes the contents of the shared
stop-signal cell. -/
theorem stop_preserves_stop_signal (s : PubSubPeerDiscovery)
    (unsubOk : Bool) (s2 : PubSubPeerDiscovery) (effs2 : List Effect)
    (h : PubSubPeerDiscovery.stop s unsubOk = .ok (s2, effs2)) :
    s2.stop_signal = s.stop_signal := by
  by_cases h1 : s.is_started <;> by_cases h2 : unsubOk <;>
    simp [PubSubPeerDiscovery.stop, h1, h2] at h <;>
    rw [← h.1]

/-- Counterexample to C10: the claim says the stop signal is created fresh
(false) at each `start()` and cannot carry over between cycles.  On the
concrete trace `start(); ctrl_c; stop(); start()`, the second `start()`
reuses the one cell allocated in `new`, which still holds `true` from the
interrupt in the first cycle; the very next tick of the second cycle's
scheduler therefore broadcasts nothing and terminates the scheduler — the
stale signal suppresses all periodic broadcasting of the later cycle. -/
theorem stop_signal_carried_over_counterexample :
    sysRun sysInit [.callStart true, .ctrlc, .callStop true, .callStart true] =
      .ok (cycleTwoSys,
           [Effect.subscribe "T", Effect.publish "T" [18, 2, 7, 9],
            Effect.spawnScheduler, Effect.unsubscribe "T",
            Effect.subscribe "T", Effect.publish "T" [18, 2, 7, 9],
            Effect.spawnScheduler]) ∧
    cycleTwoSys.disc.stop_signal = true ∧
    sysStep cycleTwoSys (.tick true) =
      .ok ({ cycleTwoSys with schedulerLive := false }, []) := by
  refine ⟨rfl, rfl, rfl⟩

/-- C10 (amended): the stop-signal cell is allocated once in `new`
(initialised to false) and the same shared cell is reused across every
`start()`/`stop()` cycle — neither `start` nor `stop` ever resets it — so a
signal set in one cycle persists, and a live scheduler that observes the
stale `true` signal performs no broadcast and terminates. -/
theorem stop_signal_shared_across_cycles (i : Nat) (lo : Bool) (t : TopicId)
    (s r s1 s2 : PubSubPeerDiscovery) (subOk unsubOk pubOk : Bool)
    (localId : PeerId) (effs1 effs2 : List Effect) (st : SysState) :
    (PubSubPeerDiscovery.new i lo t).stop_signal = false ∧
    (PubSubPeerDiscovery.start s subOk localId = .ok (s1, effs1) →
      s1.stop_signal = s.stop_signal) ∧
    (PubSubPeerDiscovery.stop r unsubOk = .ok (s2, effs2) →
      s2.stop_signal = r.stop_signal) ∧
    (st.schedulerLive = true → st.disc.stop_signal = true →
      sysStep st (.tick pubOk) =
        .ok ({ st with schedulerLive := false }, [])) := by
  refine ⟨rfl,
    fun h => start_preserves_stop_signal s subOk localId s1 effs1 h,
    fun h => stop_preserves_stop_signal r unsubOk s2 effs2 h,
    fun hl hs => ?_⟩
  simp [sysStep, hl, hs]

/-- Witness for the amended C10: concrete first-cycle `start` and `stop`
preserve the signal, and the second-cycle scheduler's first tick on the
stale `true` signal broadcasts nothing and dies. -/
theorem stop_signal_shared_across_cycles_witness :
    (PubSubPeerDiscovery.new 2 false "T").stop_signal = false ∧
    startedDisc.stop_signal = freshDisc.stop_signal ∧
    freshDisc.stop_signal = startedDisc.stop_signal ∧
    sysStep cycleTwoSys (.tick true) =
      .ok ({ cycleTwoSys with schedulerLive := false }, []) := by
  have h := stop_signal_shared_across_cycles 2 false "T" freshDisc
    startedDisc startedDisc freshDisc true true true samplePeer
    [Effect.subscribe "T", Effect.publish "T" [18, 2, 7, 9],
     Effect.spawnScheduler]
    [Effect.unsubscribe "T"] cycleTwoSys
  exact ⟨h.1, h.2.1 rfl, h.2.2.1 rfl, h.2.2.2 rfl rfl⟩
